import Mathlib

set_option maxRecDepth 8000

/-!
Verification of the orofacial-exercise core (metrics engine, session clock,
session recorder, exercise catalog) against its natural-language specification.

The definitions below are a shallow embedding of the JavaScript sources:
`facemesh.js` (class FaceMeshDetector, method calculateMetrics),
`recorder.js` (class SessionRecorder) and `exercises.js`
(class ExerciseManager, method validateExercise).

Embedding conventions:
* JavaScript numbers are modelled as `ℚ` (for landmark coordinates and
  per-frame metric values) or `ℤ` (for millisecond wall-clock timestamps and
  the integer results of `Math.round`); none of the claims under study
  depends on floating-point rounding.
* `Math.round` is `jsRound`, i.e. `⌊q + 1/2⌋`, which matches JavaScript's
  half-up rounding on all rationals.
* A JavaScript array whose slots may be empty (`undefined`) is a
  `List (Option _)`; out-of-range reads yield `none` like in JavaScript.
* JavaScript truthiness tests on numbers (`if (!this.startTime)`) are
  modelled exactly: the number 0 is falsy (`optTruthy`).
* `null`-able references are `Option`.
* Wall-clock time (`Date.now()`) is passed to every operation as an explicit
  `now : ℤ` argument.
-/

/-! ## Metrics engine (`facemesh.js`, `calculateMetrics`) -/

/-! ### Decomposition of `calculateMetrics` into its independent blocks -/

/-! ### Concrete landmark arrays used as test inputs -/

/-! ## Session recorder (`recorder.js`, class SessionRecorder) -/

/-! ### Reference-semantics view of the recorder

JavaScript objects are references: `stopSession()` pushes
`this.currentSession` into the history array and then returns that same
object. To reason about aliasing we give the recorder a second, heap-based
view: sessions live in a heap (`List Session`, addressed by index), and
both the history and the current session hold references. All numeric
logic is shared with the functional view (`elapsedOf`, `finalizeSession`).
-/

/-! ## Exercise catalog (`exercises.js`, `validateExercise`) -/

/-! ### Operation sequences over the recorder (for the dataPoint ordering
invariant) -/

/-- One MediaPipe face landmark: normalized x, y and relative depth z. -/
structure Landmark where
  x : ℚ
  y : ℚ
  z : ℚ
deriving DecidableEq

/-- A 2D normalized position (`{x, y}` object in the source). -/
structure Position2D where
  x : ℚ
  y : ℚ
deriving DecidableEq

/-- The `FacialMetrics` record built by `calculateMetrics`. -/
structure FacialMetrics where
  mouthOpening : ℚ
  lateralMovement : ℚ
  jawPosition : Position2D
  smile : ℚ
  leftEyeOpen : ℚ
  rightEyeOpen : ℚ
  eyebrowsRaised : ℚ
  tongueVisible : ℚ
  tonguePosition : Position2D
deriving DecidableEq

/-- The all-zero metrics record that `calculateMetrics` initializes. -/
def emptyMetrics : FacialMetrics :=
  { mouthOpening := 0, lateralMovement := 0, jawPosition := ⟨0, 0⟩,
    smile := 0, leftEyeOpen := 0, rightEyeOpen := 0, eyebrowsRaised := 0,
    tongueVisible := 0, tonguePosition := ⟨0, 0⟩ }

/-- `Math.abs` on rationals, written as an explicit conditional so that
concrete values evaluate by `norm_num`. -/
def jsAbs (q : ℚ) : ℚ := if q < 0 then -q else q

/-- `Math.min` on rationals, written as an explicit conditional so that
concrete values evaluate by `norm_num`. -/
def jsMin (a b : ℚ) : ℚ := if a ≤ b then a else b

/-- `Math.max` on integers, written as an explicit conditional. -/
def jsMaxI (a b : ℤ) : ℤ := if a ≤ b then b else a

/-- `Math.min` on integers, written as an explicit conditional. -/
def jsMinI (a b : ℤ) : ℤ := if a ≤ b then a else b

/-- `landmarks[i]` on a JavaScript array whose slots may be empty:
out-of-range or empty slots read as `undefined` (`none`). -/
def getLm (l : List (Option Landmark)) (i : ℕ) : Option Landmark :=
  match l.get? i with
  | some o => o
  | none => none

/-- The mouth-opening block of `calculateMetrics`
(landmarks 13/14, `min(100, jsAbs (Δy) * 500)`), as a standalone function. -/
def mouthOpeningOf (l : List (Option Landmark)) : ℚ :=
  match getLm l 13, getLm l 14 with
  | some upperLip, some lowerLip => jsMin 100 (jsAbs (lowerLip.y - upperLip.y) * 500)
  | _, _ => 0

/-- The lateral-movement block of `calculateMetrics`
(landmarks 152/1, `min(100, jsAbs (Δx) * 500)`), as a standalone function. -/
def lateralMovementOf (l : List (Option Landmark)) : ℚ :=
  match getLm l 152, getLm l 1 with
  | some chin, some noseTip => jsMin 100 (jsAbs (chin.x - noseTip.x) * 500)
  | _, _ => 0

/-- The jaw-position assignment inside the lateral-movement block
(raw chin coordinate). -/
def jawPositionOf (l : List (Option Landmark)) : Position2D :=
  match getLm l 152, getLm l 1 with
  | some chin, some _ => ⟨chin.x, chin.y⟩
  | _, _ => ⟨0, 0⟩

/-- The smile block of `calculateMetrics` (landmarks 61/291/13,
`min(100, mouthWidth*300 + avgLift*500)`), as a standalone function. -/
def smileOf (l : List (Option Landmark)) : ℚ :=
  match getLm l 61, getLm l 291, getLm l 13 with
  | some leftMouth, some rightMouth, some mouthCenter =>
    jsMin 100 (jsAbs (rightMouth.x - leftMouth.x) * 300 +
      (((mouthCenter.y - leftMouth.y) + (mouthCenter.y - rightMouth.y)) / 2) * 500)
  | _, _, _ => 0

/-- The left-eye block of `calculateMetrics` (landmarks 159/145,
`min(100, jsAbs (Δy) * 1000)`), as a standalone function. -/
def leftEyeOpenOf (l : List (Option Landmark)) : ℚ :=
  match getLm l 159, getLm l 145 with
  | some top, some bottom => jsMin 100 (jsAbs (bottom.y - top.y) * 1000)
  | _, _ => 0

/-- The right-eye block of `calculateMetrics` (landmarks 386/374,
`min(100, jsAbs (Δy) * 1000)`), as a standalone function. -/
def rightEyeOpenOf (l : List (Option Landmark)) : ℚ :=
  match getLm l 386, getLm l 374 with
  | some top, some bottom => jsMin 100 (jsAbs (bottom.y - top.y) * 1000)
  | _, _ => 0

/-- The eyebrows block of `calculateMetrics` (landmarks 70/300/6,
`min(100, avgDist * 400)`), as a standalone function. -/
def eyebrowsRaisedOf (l : List (Option Landmark)) : ℚ :=
  match getLm l 70, getLm l 300, getLm l 6 with
  | some leftEyebrow, some rightEyebrow, some noseBridge =>
    jsMin 100 ((((noseBridge.y - leftEyebrow.y) + (noseBridge.y - rightEyebrow.y)) / 2) * 400)
  | _, _, _ => 0

/-- The tongue-visibility block of `calculateMetrics` (landmarks 78/308/13/14,
`min(100, (depthFactor + heightFactor)/2)`), as a standalone function. -/
def tongueVisibleOf (l : List (Option Landmark)) : ℚ :=
  match getLm l 78, getLm l 308, getLm l 13, getLm l 14 with
  | some innerTop, some innerBottom, some upperLipInner, some lowerLipInner =>
    jsMin 100 ((jsAbs (lowerLipInner.y - upperLipInner.y) * 1000 +
      jsAbs (innerBottom.y - innerTop.y) * 800) / 2)
  | _, _, _, _ => 0

/-- The tongue-position assignment inside the tongue block
(midpoint of the two inner-mouth landmarks). -/
def tonguePositionOf (l : List (Option Landmark)) : Position2D :=
  match getLm l 78, getLm l 308, getLm l 13, getLm l 14 with
  | some innerTop, some innerBottom, some _, some _ =>
    ⟨(innerTop.x + innerBottom.x) / 2, (innerTop.y + innerBottom.y) / 2⟩
  | _, _, _, _ => ⟨0, 0⟩

/-- First guarded mutation of `calculateMetrics`: the mouth-opening block. -/
def mouthOpeningStep (l : List (Option Landmark)) (m : FacialMetrics) : FacialMetrics :=
  match getLm l 13, getLm l 14 with
  | some upperLip, some lowerLip =>
    { m with mouthOpening := jsMin 100 (jsAbs (lowerLip.y - upperLip.y) * 500) }
  | _, _ => m

/-- Second guarded mutation of `calculateMetrics`: the lateral-movement block
(also writes `jawPosition`). -/
def lateralStep (l : List (Option Landmark)) (m : FacialMetrics) : FacialMetrics :=
  match getLm l 152, getLm l 1 with
  | some chin, some noseTip =>
    { m with lateralMovement := jsMin 100 (jsAbs (chin.x - noseTip.x) * 500),
             jawPosition := ⟨chin.x, chin.y⟩ }
  | _, _ => m

/-- Third guarded mutation of `calculateMetrics`: the smile block. -/
def smileStep (l : List (Option Landmark)) (m : FacialMetrics) : FacialMetrics :=
  match getLm l 61, getLm l 291, getLm l 13 with
  | some leftMouth, some rightMouth, some mouthCenter =>
    { m with smile := jsMin 100 (jsAbs (rightMouth.x - leftMouth.x) * 300 +
        (((mouthCenter.y - leftMouth.y) + (mouthCenter.y - rightMouth.y)) / 2) * 500) }
  | _, _, _ => m

/-- Fourth guarded mutation of `calculateMetrics`: the left-eye block. -/
def leftEyeStep (l : List (Option Landmark)) (m : FacialMetrics) : FacialMetrics :=
  match getLm l 159, getLm l 145 with
  | some top, some bottom =>
    { m with leftEyeOpen := jsMin 100 (jsAbs (bottom.y - top.y) * 1000) }
  | _, _ => m

/-- Fifth guarded mutation of `calculateMetrics`: the right-eye block. -/
def rightEyeStep (l : List (Option Landmark)) (m : FacialMetrics) : FacialMetrics :=
  match getLm l 386, getLm l 374 with
  | some top, some bottom =>
    { m with rightEyeOpen := jsMin 100 (jsAbs (bottom.y - top.y) * 1000) }
  | _, _ => m

/-- Sixth guarded mutation of `calculateMetrics`: the eyebrows block. -/
def eyebrowsStep (l : List (Option Landmark)) (m : FacialMetrics) : FacialMetrics :=
  match getLm l 70, getLm l 300, getLm l 6 with
  | some leftEyebrow, some rightEyebrow, some noseBridge =>
    { m with eyebrowsRaised := jsMin 100 ((((noseBridge.y - leftEyebrow.y) +
        (noseBridge.y - rightEyebrow.y)) / 2) * 400) }
  | _, _, _ => m

/-- Seventh guarded mutation of `calculateMetrics`: the tongue block
(also writes `tonguePosition`). -/
def tongueStep (l : List (Option Landmark)) (m : FacialMetrics) : FacialMetrics :=
  match getLm l 78, getLm l 308, getLm l 13, getLm l 14 with
  | some innerTop, some innerBottom, some upperLipInner, some lowerLipInner =>
    { m with tongueVisible := jsMin 100 ((jsAbs (lowerLipInner.y - upperLipInner.y) * 1000 +
        jsAbs (innerBottom.y - innerTop.y) * 800) / 2),
             tonguePosition := ⟨(innerTop.x + innerBottom.x) / 2,
               (innerTop.y + innerBottom.y) / 2⟩ }
  | _, _, _, _ => m

/-- `calculateMetrics(landmarks)` from `facemesh.js`: starts from the
all-zero record, early-returns it on an absent (falsy) argument, then runs
the seven independently guarded blocks in source order. -/
def calculateMetrics (landmarks : Option (List (Option Landmark))) : FacialMetrics :=
  match landmarks with
  | none => emptyMetrics
  | some l =>
    tongueStep l (eyebrowsStep l (rightEyeStep l (leftEyeStep l
      (smileStep l (lateralStep l (mouthOpeningStep l emptyMetrics))))))

/-- A complete, varied face: all 478 landmarks present with coordinates in
the unit square, chosen so that all seven sub-metrics compute nonzero
values (50, 10, 35, 30, 20, 40 and 58). -/
def lmFn (i : ℕ) : Option Landmark :=
  if i = 13 then some ⟨1/2, 45/100, 0⟩
  else if i = 14 then some ⟨1/2, 55/100, 0⟩
  else if i = 152 then some ⟨52/100, 9/10, 0⟩
  else if i = 1 then some ⟨1/2, 1/2, 0⟩
  else if i = 61 then some ⟨4/10, 1/2, 0⟩
  else if i = 291 then some ⟨6/10, 1/2, 0⟩
  else if i = 159 then some ⟨4/10, 3/10, 0⟩
  else if i = 145 then some ⟨4/10, 33/100, 0⟩
  else if i = 386 then some ⟨6/10, 3/10, 0⟩
  else if i = 374 then some ⟨6/10, 32/100, 0⟩
  else if i = 70 then some ⟨4/10, 25/100, 0⟩
  else if i = 300 then some ⟨6/10, 25/100, 0⟩
  else if i = 6 then some ⟨1/2, 35/100, 0⟩
  else if i = 78 then some ⟨45/100, 1/2, 0⟩
  else if i = 308 then some ⟨55/100, 52/100, 0⟩
  else some ⟨1/2, 1/2, 0⟩

/-- The complete varied face as a 478-entry landmark array. -/
def lFull : List (Option Landmark) := (List.range 478).map lmFn

/-- The varied face with the single landmark `j` knocked out
(its slot reads as `undefined`). -/
def lDrop (j : ℕ) : List (Option Landmark) :=
  (List.range 478).map (fun i => if i = j then none else lmFn i)

/-- A complete face (478 landmarks, all present, coordinates in the unit
square) whose upper-lip center (index 13) sits above both mouth corners:
the resting geometry of a real face, exaggerated. -/
def lmC1Fn (i : ℕ) : Option Landmark :=
  if i = 13 then some ⟨1/2, 0, 0⟩ else some ⟨1/2, 1/2, 0⟩

/-- The landmark array on which `calculateMetrics` produces a negative
`smile` percentage. -/
def lC1 : List (Option Landmark) := (List.range 478).map lmC1Fn

/-- `Math.round` in JavaScript: half-up rounding, `⌊q + 1/2⌋`. -/
def jsRound (q : ℚ) : ℤ := ⌊q + 1/2⌋

/-- JavaScript truthiness of a nullable number: `null`/`undefined` and `0`
are falsy, every other number is truthy. -/
def optTruthy : Option ℤ → Bool
  | none => false
  | some n => decide (n ≠ 0)

/-- The body of `getElapsedTime()`: `if (!startTime) return 0`, then
`now - startTime - totalPausedTime`, minus the open pause interval
`now - pauseTime` when paused (`isPaused && pauseTime` truthy), floored at 0
by `Math.max`. Shared by both recorder views below. -/
def elapsedOf (startTime pauseTime : Option ℤ) (isPaused : Bool)
    (totalPausedTime now : ℤ) : ℤ :=
  if optTruthy startTime = false then 0
  else jsMaxI 0
    (if isPaused = true ∧ optTruthy pauseTime = true
      then now - startTime.getD 0 - totalPausedTime - (now - pauseTime.getD 0)
      else now - startTime.getD 0 - totalPausedTime)

/-- Session status string `'in-progress'`. -/
def statusInProgress : String := "in-progress"

/-- Session status string `'completed'`. -/
def statusCompleted : String := "completed"

/-- Session status string `'partial'`. -/
def statusPartialDone : String := "partial"

/-- Session status string `'incomplete'`. -/
def statusIncomplete : String := "incomplete"

/-- The `metrics` sub-record of a session; integers because every field is
assigned via `Math.round` (or initialized to 0). -/
structure SessionMetrics where
  avgMouthOpening : ℤ
  maxMouthOpening : ℤ
  avgLateralMovement : ℤ
  maxLateralMovement : ℤ
  completionPercentage : ℤ
deriving DecidableEq

/-- One recorded sample (`recordDataPoint`). -/
structure DataPoint where
  timestamp : ℤ
  mouthOpening : ℚ
  lateralMovement : ℚ
  jawPosition : Position2D
deriving DecidableEq

/-- A session record. `startTime`/`endTime` are kept as numeric timestamps
(the source stores them as ISO strings of the same instants; nothing under
study depends on the string format). -/
structure Session where
  id : String
  exerciseId : String
  exerciseName : String
  exerciseType : String
  duration : ℤ
  startTime : ℤ
  endTime : Option ℤ
  dataPoints : List DataPoint
  metrics : SessionMetrics
  status : String
  actualDuration : Option ℤ
deriving DecidableEq

/-- An exercise template (`exercises.js`); only the fields the recorder
reads are relevant to the claims. -/
structure Exercise where
  id : String
  name : String
  description : String
  duration : ℤ
  exerciseType : String
  createdAt : ℤ
deriving DecidableEq

/-- The fresh session object built by `startSession` (the generated random
id is passed in explicitly). -/
def newSessionFor (ex : Exercise) (now : ℤ) (freshId : String) : Session :=
  { id := freshId, exerciseId := ex.id, exerciseName := ex.name,
    exerciseType := ex.exerciseType, duration := ex.duration,
    startTime := now, endTime := none, dataPoints := [],
    metrics := { avgMouthOpening := 0, maxMouthOpening := 0,
                 avgLateralMovement := 0, maxLateralMovement := 0,
                 completionPercentage := 0 },
    status := statusInProgress, actualDuration := none }

/-- The running-maximum loop of `calculateFinalMetrics`: starts from 0 and
replaces the accumulator whenever a strictly larger value is seen. -/
def foldMaxQ (xs : List ℚ) : ℚ :=
  xs.foldl (fun m x => if x > m then x else m) 0

/-- Specification-side maximum of a list of rationals together with 0
(plain `foldr max`). -/
def maxQ0 (xs : List ℚ) : ℚ := xs.foldr max 0

/-- `calculateFinalMetrics()` applied to a session value: averages and
running maxima of `mouthOpening`/`lateralMovement` over `dataPoints`,
each stored via `Math.round`; early return leaves the metrics untouched
when there are no data points. -/
def calculateFinalMetricsOn (sess : Session) : Session :=
  if sess.dataPoints.length = 0 then sess
  else
    { sess with metrics :=
      { sess.metrics with
        avgMouthOpening := jsRound ((sess.dataPoints.map (fun p => p.mouthOpening)).sum
          / (sess.dataPoints.length : ℚ)),
        maxMouthOpening := jsRound (foldMaxQ (sess.dataPoints.map (fun p => p.mouthOpening))),
        avgLateralMovement := jsRound ((sess.dataPoints.map (fun p => p.lateralMovement)).sum
          / (sess.dataPoints.length : ℚ)),
        maxLateralMovement := jsRound (foldMaxQ (sess.dataPoints.map (fun p => p.lateralMovement))) } }

/-- The first block of `stopSession()`'s finalization: `endTime`,
`actualDuration = round(elapsed/1000)` and
`completionPercentage = min(100, round(elapsed/totalDuration*100))`, where
`totalDuration = duration * 1000`. -/
def stampStop (sess : Session) (e now : ℤ) : Session :=
  { sess with
    endTime := some now,
    actualDuration := some (jsRound ((e : ℚ) / 1000)),
    metrics := { sess.metrics with
      completionPercentage :=
        jsMinI 100 (jsRound ((e : ℚ) / ((sess.duration * 1000 : ℤ) : ℚ) * 100)) } }

/-- The status thresholds at the end of `stopSession()`:
`>=90 completed`, `>=50 partial`, otherwise `incomplete`. -/
def setStatusByThreshold (s2 : Session) : Session :=
  { s2 with status :=
      if s2.metrics.completionPercentage ≥ 90 then statusCompleted
      else if s2.metrics.completionPercentage ≥ 50 then statusPartialDone
      else statusIncomplete }

/-- The finalization performed by `stopSession()` on the current session, in
source order: stamp times and completion, `calculateFinalMetrics()`, then
the status thresholds. -/
def finalizeSession (sess : Session) (e : ℤ) (now : ℤ) : Session :=
  setStatusByThreshold (calculateFinalMetricsOn (stampStop sess e now))

/-- The recorder's mutable fields, with the current session held as a value
(functional view; the reference-aliasing view is `RecorderH` below). -/
structure Recorder where
  sessions : List Session
  currentSession : Option Session
  isRecording : Bool
  isPaused : Bool
  startTime : Option ℤ
  pauseTime : Option ℤ
  totalPausedTime : ℤ
deriving DecidableEq

/-- The recorder as constructed (`new SessionRecorder()` with empty
storage). -/
def initRecorder : Recorder :=
  { sessions := [], currentSession := none, isRecording := false,
    isPaused := false, startTime := none, pauseTime := none,
    totalPausedTime := 0 }

/-- `getElapsedTime()` on the functional recorder view. -/
def getElapsedTime (s : Recorder) (now : ℤ) : ℤ :=
  elapsedOf s.startTime s.pauseTime s.isPaused s.totalPausedTime now

/-- `startSession(exercise)`: refuses (returns `null`) while recording;
otherwise installs a fresh in-progress session and timing state. -/
def startSession (s : Recorder) (ex : Exercise) (now : ℤ) (freshId : String) :
    Option Session × Recorder :=
  if s.isRecording = true then (none, s)
  else
    let sess := newSessionFor ex now freshId
    (some sess,
      { s with currentSession := some sess, isRecording := true,
               isPaused := false, startTime := some now, totalPausedTime := 0 })

/-- `pauseSession()`: refuses unless recording and not yet paused. -/
def pauseSession (s : Recorder) (now : ℤ) : Bool × Recorder :=
  if s.isRecording = false ∨ s.isPaused = true then (false, s)
  else (true, { s with isPaused := true, pauseTime := some now })

/-- `resumeSession()`: refuses unless recording and paused; accumulates the
closed pause interval (`null` pauseTime coerces to 0 like in JavaScript). -/
def resumeSession (s : Recorder) (now : ℤ) : Bool × Recorder :=
  if s.isRecording = false ∨ s.isPaused = false then (false, s)
  else (true,
    { s with totalPausedTime := s.totalPausedTime + (now - s.pauseTime.getD 0),
             isPaused := false, pauseTime := none })

/-- `recordDataPoint(landmarks, metrics)`: appends a sample stamped with
`getElapsedTime()` unless idle, paused or without a current session. -/
def recordDataPoint (s : Recorder) (m : FacialMetrics) (now : ℤ) : Recorder :=
  match s.isRecording, s.isPaused, s.currentSession with
  | true, false, some sess =>
    let dp : DataPoint :=
      { timestamp := getElapsedTime s now, mouthOpening := m.mouthOpening,
        lateralMovement := m.lateralMovement, jawPosition := m.jawPosition }
    { s with currentSession := some { sess with dataPoints := sess.dataPoints ++ [dp] } }
  | _, _, _ => s

/-- The recorder with sessions held by reference into an object heap. -/
structure RecorderH where
  heap : List Session
  sessions : List ℕ
  currentSession : Option ℕ
  isRecording : Bool
  isPaused : Bool
  startTime : Option ℤ
  pauseTime : Option ℤ
  totalPausedTime : ℤ
deriving DecidableEq

/-- The heap-view recorder as constructed (empty heap and history). -/
def initRecorderH : RecorderH :=
  { heap := [], sessions := [], currentSession := none, isRecording := false,
    isPaused := false, startTime := none, pauseTime := none,
    totalPausedTime := 0 }

/-- Dereference a session object. -/
def readSessionH (s : RecorderH) (r : ℕ) : Option Session :=
  s.heap.get? r

/-- A caller mutating the session object behind reference `r` (e.g. writing
to a field of the value returned by `stopSession`). -/
def mutateSessionH (s : RecorderH) (r : ℕ) (f : Session → Session) : RecorderH :=
  match s.heap.get? r with
  | some v => { s with heap := s.heap.set r (f v) }
  | none => s

/-- `getElapsedTime()` on the heap view (same timing fields). -/
def getElapsedTimeH (s : RecorderH) (now : ℤ) : ℤ :=
  elapsedOf s.startTime s.pauseTime s.isPaused s.totalPausedTime now

/-- `startSession(exercise)` on the heap view: allocates the fresh session
object and keeps a reference to it. -/
def startSessionH (s : RecorderH) (ex : Exercise) (now : ℤ) (freshId : String) :
    Option ℕ × RecorderH :=
  if s.isRecording = true then (none, s)
  else
    let r := s.heap.length
    (some r,
      { s with heap := s.heap ++ [newSessionFor ex now freshId],
               currentSession := some r, isRecording := true, isPaused := false,
               startTime := some now, totalPausedTime := 0 })

/-- `stopSession()` on the heap view: refuses when idle or without a
current session; otherwise finalizes the current session object in place,
unshifts the *reference* onto the history, resets the recorder state
(`reset()`), and returns that same reference. -/
def stopSessionH (s : RecorderH) (now : ℤ) : Option ℕ × RecorderH :=
  match s.isRecording, s.currentSession with
  | true, some r =>
    match s.heap.get? r with
    | none => (none, s)
    | some sess =>
      let fin := finalizeSession sess (getElapsedTimeH s now) now
      (some r,
        { s with heap := s.heap.set r fin, sessions := r :: s.sessions,
                 currentSession := none, isRecording := false, isPaused := false,
                 startTime := none, pauseTime := none, totalPausedTime := 0 })
  | _, _ => (none, s)

/-- The fields of the form data that `validateExercise` inspects. -/
structure ExerciseData where
  name : String
  duration : ℚ
  exerciseType : String
deriving DecidableEq

/-- `validateExercise`'s result shape. -/
structure ValidationResult where
  isValid : Bool
  errors : List String
deriving DecidableEq

/-- Error message for a missing name. -/
def nameRequiredMsg : String := "El nombre del ejercicio es requerido"

/-- Error message for a missing or too-small duration. -/
def durationMinMsg : String := "La duración debe ser de al menos 10 segundos"

/-- Error message for a too-large duration. -/
def durationMaxMsg : String := "La duración no puede exceder 10 minutos"

/-- Error message for a missing type. -/
def typeRequiredMsg : String := "Debes seleccionar un tipo de ejercicio"

/-- JavaScript `String.prototype.trim`: strips leading and trailing
whitespace (embedded directly over the character list so that concrete
values evaluate). -/
def jsTrim (s : String) : String :=
  ⟨((s.data.dropWhile Char.isWhitespace).reverse.dropWhile Char.isWhitespace).reverse⟩

/-- `validateExercise(exerciseData)`: pushes one message per violated rule
(falsy name or blank after trim; falsy duration or below 10; above 600;
falsy type), `isValid` iff no messages. -/
def validateExercise (d : ExerciseData) : ValidationResult :=
  let errors : List String :=
    (if d.name = "" ∨ jsTrim d.name = "" then [nameRequiredMsg] else []) ++
    (if d.duration = 0 ∨ d.duration < 10 then [durationMinMsg] else []) ++
    (if d.duration > 600 then [durationMaxMsg] else []) ++
    (if d.exerciseType = "" then [typeRequiredMsg] else [])
  { isValid := errors.isEmpty, errors := errors }

/-- One recorder operation of the kinds that build up a session. -/
inductive RecOp where
  | start (ex : Exercise) (freshId : String)
  | pause
  | resume
  | record (m : FacialMetrics)

/-- Apply one timestamped operation (`Date.now()` value paired with the
call). -/
def stepRec (s : Recorder) (a : ℤ × RecOp) : Recorder :=
  match a.2 with
  | RecOp.start ex freshId => (startSession s ex a.1 freshId).2
  | RecOp.pause => (pauseSession s a.1).2
  | RecOp.resume => (resumeSession s a.1).2
  | RecOp.record m => recordDataPoint s m a.1

/-- Run a sequence of timestamped operations from a state. -/
def runRec (s : Recorder) (ops : List (ℤ × RecOp)) : Recorder :=
  ops.foldl stepRec s

/-- The timestamps of the current session's data points, in array order. -/
def timestampsOf (s : Recorder) : List ℤ :=
  match s.currentSession with
  | none => []
  | some sess => sess.dataPoints.map (fun d => d.timestamp)

/-- A lower bound on every future recordable timestamp of state `s` at
wall-clock time `t`: the current elapsed time if unpaused, and the elapsed
time that a resume would restart from if paused. -/
def recBound (s : Recorder) (t : ℤ) : ℤ :=
  if optTruthy s.startTime = false then 0
  else if s.isPaused = true then
    jsMaxI 0 (s.pauseTime.getD 0 - s.startTime.getD 0 - s.totalPausedTime)
  else getElapsedTime s t

/-- Invariant carried along an operation run: timestamps are sorted and all
of them are below `recBound`. -/
def InvRec (s : Recorder) (t : ℤ) : Prop :=
  List.Chain' (fun a b => a ≤ b) (timestampsOf s) ∧
    ∀ x ∈ timestampsOf s, x ≤ recBound s t

def exA : Exercise :=
  { id := "ex_1", name := "Apertura", description := "", duration := 60,
    exerciseType := "mouth-opening", createdAt := 0 }

def sessA : Session := newSessionFor exA 1000 ("ses_1")

def rhRun1 : RecorderH := (startSessionH initRecorderH exA 1000 ("ses_1")).2

def rhStopped : RecorderH := (stopSessionH rhRun1 61000).2

def rhMutated : RecorderH :=
  mutateSessionH rhStopped (((stopSessionH rhRun1 61000).1).getD 99)
    (fun sess => { sess with exerciseName := "mutated" })

def ex100 : Exercise :=
  { id := "ex_2", name := "Demo", description := "", duration := 100,
    exerciseType := "combined", createdAt := 0 }

def sess100 : Session := newSessionFor ex100 1000 ("ses_2")

def rhT : RecorderH :=
  { heap := [sess100], sessions := [], currentSession := some 0,
    isRecording := true, isPaused := false, startTime := some 1000,
    pauseTime := none, totalPausedTime := 0 }

def sessEx : Session :=
  { newSessionFor ex100 1000 ("ses_3") with
    dataPoints := [{ timestamp := 1000, mouthOpening := 10, lateralMovement := 0, jawPosition := ⟨0, 0⟩ },
                   { timestamp := 2000, mouthOpening := 30, lateralMovement := 0, jawPosition := ⟨0, 0⟩ }] }

def rhEx : RecorderH :=
  { heap := [sessEx], sessions := [], currentSession := some 0,
    isRecording := true, isPaused := false, startTime := some 1000,
    pauseTime := none, totalPausedTime := 0 }

def sessHalf : Session :=
  { newSessionFor ex100 1000 ("ses_4") with
    dataPoints := [{ timestamp := 1000, mouthOpening := 1/2, lateralMovement := 0, jawPosition := ⟨0, 0⟩ }] }

def rhHalf : RecorderH :=
  { heap := [sessHalf], sessions := [], currentSession := some 0,
    isRecording := true, isPaused := false, startTime := some 1000,
    pauseTime := none, totalPausedTime := 0 }

def inUnitSquare (o : Option Landmark) : Bool :=
  match o with
  | none => false
  | some lm => decide (0 ≤ lm.x) && decide (lm.x ≤ 1) && decide (0 ≤ lm.y) && decide (lm.y ≤ 1)

def recW : Recorder :=
  { sessions := [], currentSession := none, isRecording := true,
    isPaused := false, startTime := some 1000, pauseTime := none,
    totalPausedTime := 0 }

def opsW : List (ℤ × RecOp) :=
  [(1000, RecOp.start exA ("ses_9")), (2000, RecOp.record emptyMetrics),
   (3000, RecOp.pause), (5000, RecOp.resume), (6000, RecOp.record emptyMetrics)]

def rhP : RecorderH :=
  { heap := [sess100], sessions := [], currentSession := some 0,
    isRecording := true, isPaused := true, startTime := some 1000,
    pauseTime := some 4000, totalPausedTime := 500 }

/-! ## Lemmas and theorems -/

lemma mouthOpeningStep_eq (l : List (Option Landmark)) (m : FacialMetrics)
    (hm : m.mouthOpening = 0) :
    mouthOpeningStep l m = { m with mouthOpening := mouthOpeningOf l } := by
  rcases m
  rcases h1 : getLm l 13 with _ | u <;> rcases h2 : getLm l 14 with _ | v <;>
    simp_all [mouthOpeningStep, mouthOpeningOf]

lemma lateralStep_eq (l : List (Option Landmark)) (m : FacialMetrics)
    (hm : m.lateralMovement = 0) (hj : m.jawPosition = ⟨0, 0⟩) :
    lateralStep l m = { m with lateralMovement := lateralMovementOf l, jawPosition := jawPositionOf l } := by
  rcases m
  rcases h1 : getLm l 152 with _ | u <;> rcases h2 : getLm l 1 with _ | v <;>
    simp_all [lateralStep, lateralMovementOf, jawPositionOf]

lemma smileStep_eq (l : List (Option Landmark)) (m : FacialMetrics)
    (hm : m.smile = 0) :
    smileStep l m = { m with smile := smileOf l } := by
  rcases m
  rcases h1 : getLm l 61 with _ | a <;> rcases h2 : getLm l 291 with _ | b <;>
    rcases h3 : getLm l 13 with _ | c <;> simp_all [smileStep, smileOf]

lemma leftEyeStep_eq (l : List (Option Landmark)) (m : FacialMetrics)
    (hm : m.leftEyeOpen = 0) :
    leftEyeStep l m = { m with leftEyeOpen := leftEyeOpenOf l } := by
  rcases m
  rcases h1 : getLm l 159 with _ | a <;> rcases h2 : getLm l 145 with _ | b <;>
    simp_all [leftEyeStep, leftEyeOpenOf]

lemma rightEyeStep_eq (l : List (Option Landmark)) (m : FacialMetrics)
    (hm : m.rightEyeOpen = 0) :
    rightEyeStep l m = { m with rightEyeOpen := rightEyeOpenOf l } := by
  rcases m
  rcases h1 : getLm l 386 with _ | a <;> rcases h2 : getLm l 374 with _ | b <;>
    simp_all [rightEyeStep, rightEyeOpenOf]

lemma eyebrowsStep_eq (l : List (Option Landmark)) (m : FacialMetrics)
    (hm : m.eyebrowsRaised = 0) :
    eyebrowsStep l m = { m with eyebrowsRaised := eyebrowsRaisedOf l } := by
  rcases m
  rcases h1 : getLm l 70 with _ | a <;> rcases h2 : getLm l 300 with _ | b <;>
    rcases h3 : getLm l 6 with _ | c <;> simp_all [eyebrowsStep, eyebrowsRaisedOf]

lemma tongueStep_eq (l : List (Option Landmark)) (m : FacialMetrics)
    (hm : m.tongueVisible = 0) (hp : m.tonguePosition = ⟨0, 0⟩) :
    tongueStep l m = { m with tongueVisible := tongueVisibleOf l, tonguePosition := tonguePositionOf l } := by
  rcases m
  rcases h1 : getLm l 78 with _ | a <;> rcases h2 : getLm l 308 with _ | b <;>
    rcases h3 : getLm l 13 with _ | c <;> rcases h4 : getLm l 14 with _ | d <;>
    simp_all [tongueStep, tongueVisibleOf, tonguePositionOf]

/-- `calculateMetrics` on a present landmark array is exactly the record of
the seven independent block functions: each field depends only on its own
block's landmarks. -/
lemma calculateMetrics_decomp (l : List (Option Landmark)) :
    calculateMetrics (some l) =
      { mouthOpening := mouthOpeningOf l, lateralMovement := lateralMovementOf l,
        jawPosition := jawPositionOf l, smile := smileOf l,
        leftEyeOpen := leftEyeOpenOf l, rightEyeOpen := rightEyeOpenOf l,
        eyebrowsRaised := eyebrowsRaisedOf l, tongueVisible := tongueVisibleOf l,
        tonguePosition := tonguePositionOf l } := by
  show tongueStep l (eyebrowsStep l (rightEyeStep l (leftEyeStep l
      (smileStep l (lateralStep l (mouthOpeningStep l emptyMetrics)))))) = _
  rw [mouthOpeningStep_eq l emptyMetrics rfl]
  rw [lateralStep_eq l _ rfl rfl]
  rw [smileStep_eq l _ rfl]
  rw [leftEyeStep_eq l _ rfl]
  rw [rightEyeStep_eq l _ rfl]
  rw [eyebrowsStep_eq l _ rfl]
  rw [tongueStep_eq l _ rfl rfl]

/-- Reading index `i < n` of the array `(List.range n).map f` gives `f i`. -/
lemma getLm_range_map (f : ℕ → Option Landmark) (n i : ℕ) (h : i < n) :
    getLm ((List.range n).map f) i = f i := by
  simp [getLm, List.get?_eq_getElem?, List.getElem?_map, List.getElem?_range, h]

lemma elapsedOf_mono (st pt : Option ℤ) (ip : Bool) (tpt t u : ℤ) (h : t ≤ u) :
    elapsedOf st pt ip tpt t ≤ elapsedOf st pt ip tpt u := by
  unfold elapsedOf jsMaxI
  split_ifs <;> omega

lemma recBound_mono (s : Recorder) (t u : ℤ) (h : t ≤ u) :
    recBound s t ≤ recBound s u := by
  unfold recBound
  split_ifs with h1 h2
  · exact le_refl 0
  · exact le_refl _
  · exact elapsedOf_mono _ _ _ _ _ _ h

lemma InvRec_mono (s : Recorder) (t u : ℤ) (h : InvRec s t) (htu : t ≤ u) :
    InvRec s u :=
  ⟨h.1, fun x hx => le_trans (h.2 x hx) (recBound_mono s t u htu)⟩

lemma recBound_eq_elapsed (s : Recorder) (t : ℤ) (hp : s.isPaused = false) :
    recBound s t = getElapsedTime s t := by
  unfold recBound getElapsedTime elapsedOf
  split_ifs with h1 h2 <;> simp_all

lemma recBound_pause (s : Recorder) (u v : ℤ) (hp : s.isPaused = false) :
    recBound { s with isPaused := true, pauseTime := some u } v = recBound s u := by
  simp only [recBound, getElapsedTime, elapsedOf, jsMaxI, hp]
  split_ifs <;> simp_all

lemma recBound_resume (s : Recorder) (t u v : ℤ) (hp : s.isPaused = true) (huv : u ≤ v) :
    recBound s t ≤ recBound { s with
      totalPausedTime := s.totalPausedTime + (u - s.pauseTime.getD 0),
      isPaused := false, pauseTime := none } v := by
  simp only [recBound, getElapsedTime, elapsedOf, jsMaxI, hp]
  split_ifs <;> simp_all <;> omega

lemma stepRec_preserves (s : Recorder) (t u : ℤ) (op : RecOp)
    (h : InvRec s t) (htu : t ≤ u) : InvRec (stepRec s (u, op)) u := by
  have hmono : InvRec s u := InvRec_mono s t u h htu
  cases op with
  | start ex freshId =>
    by_cases hr : s.isRecording = true
    · simpa [stepRec, startSession, hr] using hmono
    · constructor
      · simp [stepRec, startSession, hr, timestampsOf, newSessionFor, InvRec]
      · simp [stepRec, startSession, hr, timestampsOf, newSessionFor, InvRec]
  | pause =>
    by_cases hc : s.isRecording = false ∨ s.isPaused = true
    · simpa [stepRec, pauseSession, hc] using hmono
    · have hp : s.isPaused = false := by
        rcases Bool.eq_false_or_eq_true s.isPaused with h1 | h1
        · exact absurd (Or.inr h1) hc
        · exact h1
      refine ⟨?_, ?_⟩
      · simpa [stepRec, pauseSession, hc, timestampsOf] using hmono.1
      · intro x hx
        have hx' : x ∈ timestampsOf s := by
          simpa [stepRec, pauseSession, hc, timestampsOf] using hx
        have := hmono.2 x hx'
        calc x ≤ recBound s u := this
          _ = recBound (stepRec s (u, RecOp.pause)) u := by
              simp [stepRec, pauseSession, hc, recBound_pause s u u hp]
  | resume =>
    by_cases hc : s.isRecording = false ∨ s.isPaused = false
    · simpa [stepRec, resumeSession, hc] using hmono
    · have hp : s.isPaused = true := by
        rcases Bool.eq_false_or_eq_true s.isPaused with h1 | h1
        · exact h1
        · exact absurd (Or.inr h1) hc
      refine ⟨?_, ?_⟩
      · simpa [stepRec, resumeSession, hc, timestampsOf] using h.1
      · intro x hx
        have hx' : x ∈ timestampsOf s := by
          simpa [stepRec, resumeSession, hc, timestampsOf] using hx
        have hxb := h.2 x hx'
        have hge := recBound_resume s t u u hp (le_refl u)
        have heq : recBound (stepRec s (u, RecOp.resume)) u = recBound { s with
            totalPausedTime := s.totalPausedTime + (u - s.pauseTime.getD 0),
            isPaused := false, pauseTime := none } u := by
          simp [stepRec, resumeSession, hc]
        rw [heq]
        exact le_trans hxb hge
  | record m =>
    rcases hcs : s.currentSession with _ | sess
    · rcases hr : s.isRecording with _ | _ <;> rcases hp : s.isPaused with _ | _ <;>
        simpa [stepRec, recordDataPoint, hcs, hr, hp] using hmono
    · rcases hr : s.isRecording with _ | _ <;> rcases hp : s.isPaused with _ | _
      · simpa [stepRec, recordDataPoint, hcs, hr, hp] using hmono
      · simpa [stepRec, recordDataPoint, hcs, hr, hp] using hmono
      · have hts : timestampsOf s = sess.dataPoints.map (fun d => d.timestamp) := by
          simp [timestampsOf, hcs]
        have hbound : ∀ x ∈ timestampsOf s, x ≤ getElapsedTime s u := by
          intro x hx
          have := hmono.2 x hx
          rwa [recBound_eq_elapsed s u hp] at this
        constructor
        · have heq : timestampsOf (stepRec s (u, RecOp.record m)) =
              sess.dataPoints.map (fun d => d.timestamp) ++ [getElapsedTime s u] := by
            simp [stepRec, recordDataPoint, hcs, hr, hp, timestampsOf]
          rw [heq, List.chain'_append]
          refine ⟨hts ▸ hmono.1, List.chain'_singleton _, ?_⟩
          intro x hx y hy
          simp at hy
          subst hy
          apply hbound
          rw [hts]
          exact List.mem_of_mem_getLast? hx
        · intro x hx
          have hx' : x ∈ sess.dataPoints.map (fun d => d.timestamp) ++ [getElapsedTime s u] := by
            simpa [stepRec, recordDataPoint, hcs, hr, hp, timestampsOf] using hx
          have hrb : recBound (stepRec s (u, RecOp.record m)) u = recBound s u := by
            simp [stepRec, recordDataPoint, hcs, hr, hp, recBound, getElapsedTime, elapsedOf]
          rw [hrb, recBound_eq_elapsed s u hp]
          rcases List.mem_append.mp hx' with hx1 | hx2
          · apply hbound; rw [hts]; exact hx1
          · simp at hx2; subst hx2; exact le_refl _
      · simpa [stepRec, recordDataPoint, hcs, hr, hp] using hmono

lemma runRec_inv : ∀ (ops : List (ℤ × RecOp)) (s : Recorder) (t : ℤ),
    InvRec s t → List.Chain' (fun a b => a ≤ b) (t :: ops.map (fun a => a.1)) →
    ∃ u, InvRec (runRec s ops) u := by
  intro ops
  induction ops with
  | nil => exact fun s t h _ => ⟨t, h⟩
  | cons hd tl ih =>
    intro s t h hch
    rw [List.map_cons, List.chain'_cons] at hch
    have h1 : InvRec (stepRec s hd) hd.1 :=
      stepRec_preserves s t hd.1 hd.2 h hch.1
    have heq : runRec s (hd :: tl) = runRec (stepRec s hd) tl := rfl
    rw [heq]
    exact ih (stepRec s hd) hd.1 h1 hch.2

lemma foldMaxQ_eq_foldl_max (xs : List ℚ) : foldMaxQ xs = xs.foldl max 0 := by
  unfold foldMaxQ
  congr 1
  funext m x
  rw [max_def]
  split_ifs <;> first | rfl | linarith

lemma cfm_completion (sess : Session) :
    (calculateFinalMetricsOn sess).metrics.completionPercentage =
      sess.metrics.completionPercentage := by
  unfold calculateFinalMetricsOn
  split_ifs <;> rfl

lemma cfm_actualDuration (sess : Session) :
    (calculateFinalMetricsOn sess).actualDuration = sess.actualDuration := by
  unfold calculateFinalMetricsOn
  split_ifs <;> rfl

lemma cfm_endTime (sess : Session) :
    (calculateFinalMetricsOn sess).endTime = sess.endTime := by
  unfold calculateFinalMetricsOn
  split_ifs <;> rfl

lemma cfm_avg_max (sess : Session) (h : sess.dataPoints.length ≠ 0) :
    (calculateFinalMetricsOn sess).metrics.avgMouthOpening =
      jsRound ((sess.dataPoints.map (fun p => p.mouthOpening)).sum / (sess.dataPoints.length : ℚ)) ∧
    (calculateFinalMetricsOn sess).metrics.maxMouthOpening =
      jsRound (foldMaxQ (sess.dataPoints.map (fun p => p.mouthOpening))) ∧
    (calculateFinalMetricsOn sess).metrics.avgLateralMovement =
      jsRound ((sess.dataPoints.map (fun p => p.lateralMovement)).sum / (sess.dataPoints.length : ℚ)) ∧
    (calculateFinalMetricsOn sess).metrics.maxLateralMovement =
      jsRound (foldMaxQ (sess.dataPoints.map (fun p => p.lateralMovement))) := by
  unfold calculateFinalMetricsOn
  simp [h]

lemma cfm_empty (sess : Session) (h : sess.dataPoints.length = 0) :
    calculateFinalMetricsOn sess = sess := by
  unfold calculateFinalMetricsOn
  simp [h]

lemma finalizeSession_fields (sess : Session) (e now : ℤ) :
    (finalizeSession sess e now).metrics.completionPercentage =
      jsMinI 100 (jsRound ((e : ℚ) / ((sess.duration * 1000 : ℤ) : ℚ) * 100)) ∧
    (finalizeSession sess e now).actualDuration = some (jsRound ((e : ℚ) / 1000)) ∧
    (finalizeSession sess e now).endTime = some now ∧
    (finalizeSession sess e now).status =
      (if (finalizeSession sess e now).metrics.completionPercentage ≥ 90 then statusCompleted
       else if (finalizeSession sess e now).metrics.completionPercentage ≥ 50 then statusPartialDone
       else statusIncomplete) := by
  unfold finalizeSession setStatusByThreshold
  refine ⟨?_, ?_, ?_, ?_⟩
  · rw [show ({ calculateFinalMetricsOn (stampStop sess e now) with status :=
      if (calculateFinalMetricsOn (stampStop sess e now)).metrics.completionPercentage ≥ 90 then statusCompleted
      else if (calculateFinalMetricsOn (stampStop sess e now)).metrics.completionPercentage ≥ 50 then statusPartialDone
      else statusIncomplete } : Session).metrics =
      (calculateFinalMetricsOn (stampStop sess e now)).metrics from rfl]
    rw [cfm_completion]
    rfl
  · rw [show ({ calculateFinalMetricsOn (stampStop sess e now) with status :=
      if (calculateFinalMetricsOn (stampStop sess e now)).metrics.completionPercentage ≥ 90 then statusCompleted
      else if (calculateFinalMetricsOn (stampStop sess e now)).metrics.completionPercentage ≥ 50 then statusPartialDone
      else statusIncomplete } : Session).actualDuration =
      (calculateFinalMetricsOn (stampStop sess e now)).actualDuration from rfl]
    rw [cfm_actualDuration]
    rfl
  · rw [show ({ calculateFinalMetricsOn (stampStop sess e now) with status :=
      if (calculateFinalMetricsOn (stampStop sess e now)).metrics.completionPercentage ≥ 90 then statusCompleted
      else if (calculateFinalMetricsOn (stampStop sess e now)).metrics.completionPercentage ≥ 50 then statusPartialDone
      else statusIncomplete } : Session).endTime =
      (calculateFinalMetricsOn (stampStop sess e now)).endTime from rfl]
    rw [cfm_endTime]
    rfl
  · rfl

lemma stopSessionH_eq (s : RecorderH) (r : ℕ) (sess : Session) (now : ℤ)
    (hr : s.isRecording = true) (hc : s.currentSession = some r)
    (hg : s.heap.get? r = some sess) :
    stopSessionH s now = (some r,
      { s with heap := s.heap.set r (finalizeSession sess (getElapsedTimeH s now) now),
               sessions := r :: s.sessions, currentSession := none,
               isRecording := false, isPaused := false, startTime := none,
               pauseTime := none, totalPausedTime := 0 }) := by
  have hg2 : s.heap[r]? = some sess := by
    rw [← List.get?_eq_getElem?]
    exact hg
  simp [stopSessionH, hr, hc, hg2]

lemma readSessionH_set (s : RecorderH) (r : ℕ) (sess : Session)
    (hg : s.heap.get? r = some sess) (fin : Session) :
    (s.heap.set r fin).get? r = some fin := by
  have hlt : r < s.heap.length := by
    rcases List.get?_eq_some.mp hg with ⟨h, _⟩
    exact h
  rw [List.get?_eq_getElem?]
  exact List.getElem?_set_eq_of_lt fin hlt

/-- C8: `validateExercise` returns `isValid = true` exactly when the name
is non-empty after trimming, `10 ≤ duration ≤ 600`, and the type is
present; its error list has one entry per violated rule; and on
`{name:"", duration:5, type:""}` it returns `isValid:false` with exactly
the three distinct messages (missing name, duration too low, missing
type). -/
theorem validateExercise_correct :
    (∀ d : ExerciseData, ((validateExercise d).isValid = true ↔
      (jsTrim d.name ≠ "" ∧ 10 ≤ d.duration ∧ d.duration ≤ 600 ∧ d.exerciseType ≠ ""))) ∧
    (∀ d : ExerciseData, (validateExercise d).errors.length =
      (if d.name = "" ∨ jsTrim d.name = "" then 1 else 0) +
      (if d.duration = 0 ∨ d.duration < 10 then 1 else 0) +
      (if d.duration > 600 then 1 else 0) +
      (if d.exerciseType = "" then 1 else 0)) ∧
    (validateExercise { name := "", duration := 5, exerciseType := "" }).isValid = false ∧
    (validateExercise { name := "", duration := 5, exerciseType := "" }).errors =
      [nameRequiredMsg, durationMinMsg, typeRequiredMsg] ∧
    nameRequiredMsg ≠ durationMinMsg ∧ nameRequiredMsg ≠ typeRequiredMsg ∧
    durationMinMsg ≠ typeRequiredMsg := by
  refine ⟨?_, ?_, ?_, ?_, ?_, ?_, ?_⟩
  · intro d
    constructor
    · intro hv
      have h1 : ¬(d.name = "" ∨ jsTrim d.name = "") := by
        intro h
        simp [validateExercise, h] at hv
      have h2 : ¬(d.duration = 0 ∨ d.duration < 10) := by
        intro h
        simp [validateExercise, h] at hv
      have h3 : ¬(d.duration > 600) := by
        intro h
        simp [validateExercise, h] at hv
      have h4 : ¬(d.exerciseType = "") := by
        intro h
        simp [validateExercise, h] at hv
      push_neg at h1 h2 h3
      exact ⟨h1.2, h2.2, h3, h4⟩
    · rintro ⟨ha, hb, hc, hd⟩
      have h1 : ¬(d.name = "" ∨ jsTrim d.name = "") := by
        rintro (h | h)
        · exact ha (by rw [h]; rfl)
        · exact ha h
      have h2 : ¬(d.duration = 0 ∨ d.duration < 10) := by
        rintro (h | h) <;> linarith
      have h3 : ¬(d.duration > 600) := by linarith
      simp [validateExercise, h1, h2, h3, hd]
  · intro d
    unfold validateExercise
    split_ifs <;> rfl
  · norm_num [validateExercise, nameRequiredMsg, durationMinMsg, typeRequiredMsg]
  · norm_num [validateExercise, nameRequiredMsg, durationMinMsg, typeRequiredMsg]
  · simp [nameRequiredMsg, durationMinMsg]
  · simp [nameRequiredMsg, typeRequiredMsg]
  · simp [durationMinMsg, typeRequiredMsg]

/-- C2: while paused, `getElapsedTime()` returns exactly the value it had
at the moment `pauseSession` was called, for every later (or earlier)
query time; and after `resumeSession` following a pause of duration
`D = r - p` ms, `getElapsedTime()` equals the raw wall-clock delta since
`startTime` minus previously accumulated pauses, minus exactly `D`
(whenever that quantity is nonnegative, i.e. away from the `Math.max 0`
clamp; `st ≠ 0` and `p ≠ 0` exclude the epoch-instant timestamps that
JavaScript's number truthiness treats as absent). -/
theorem elapsed_pause_freeze_resume_offset
    (s : Recorder) (st p r now : ℤ)
    (hrec : s.isRecording = true) (hnp : s.isPaused = false)
    (hst : s.startTime = some st) (hst0 : st ≠ 0) (hp0 : p ≠ 0)
    (hfloor : 0 ≤ now - st - s.totalPausedTime - (r - p)) :
    (pauseSession s p).1 = true ∧
    getElapsedTime (pauseSession s p).2 now = getElapsedTime s p ∧
    (resumeSession (pauseSession s p).2 r).1 = true ∧
    getElapsedTime (resumeSession (pauseSession s p).2 r).2 now
      = now - st - s.totalPausedTime - (r - p) := by
  have hps : pauseSession s p = (true, { s with isPaused := true, pauseTime := some p }) := by
    simp [pauseSession, hrec, hnp]
  have hrs : resumeSession { s with isPaused := true, pauseTime := some p } r =
      (true, { s with totalPausedTime := s.totalPausedTime + (r - p), isPaused := false, pauseTime := none }) := by
    simp [resumeSession, hrec]
  have d1 : optTruthy (some st) = true := by simp [optTruthy, hst0]
  have d2 : optTruthy (some p) = true := by simp [optTruthy, hp0]
  rw [hps]
  refine ⟨rfl, ?_, ?_, ?_⟩
  · show getElapsedTime { s with isPaused := true, pauseTime := some p } now
      = getElapsedTime s p
    unfold getElapsedTime elapsedOf
    simp only [hst, hnp, d1, d2, Option.getD_some]
    unfold jsMaxI
    split_ifs <;> simp_all <;> omega
  · rw [hrs]
  · rw [hrs]
    show getElapsedTime { s with totalPausedTime := s.totalPausedTime + (r - p), isPaused := false, pauseTime := none } now = _
    unfold getElapsedTime elapsedOf
    simp only [hst, d1, Option.getD_some]
    unfold jsMaxI
    split_ifs <;> simp_all <;> omega

lemma finalize_exerciseName (sess : Session) (e now : ℤ) :
    (finalizeSession sess e now).exerciseName = sess.exerciseName := by
  unfold finalizeSession setStatusByThreshold calculateFinalMetricsOn stampStop
  split_ifs <;> rfl

/-- C3 (counterexample): `stopSession()` does NOT return a detached copy.
In the reference-semantics model, the reference returned by `stopSessionH`
is the very object stored at the head of the history: mutating the
returned session (renaming the exercise to "mutated") changes the session
that the stored history dereferences to. -/
theorem stopSession_alias_cex :
    (stopSessionH rhRun1 61000).1 = some 0 ∧
    rhStopped.sessions = [0] ∧
    (readSessionH rhMutated 0).map (fun x => x.exerciseName) = some ("mutated") ∧
    (readSessionH rhStopped 0).map (fun x => x.exerciseName) = some ("Apertura") ∧
    readSessionH rhMutated 0 ≠ readSessionH rhStopped 0 := by
  have h1 : rhRun1 = { heap := [sessA], sessions := [], currentSession := some 0,
                       isRecording := true, isPaused := false, startTime := some 1000,
                       pauseTime := none, totalPausedTime := 0 } := by
    simp [rhRun1, startSessionH, initRecorderH, sessA]
  have h2 : getElapsedTimeH rhRun1 61000 = 60000 := by
    rw [h1]
    norm_num [getElapsedTimeH, elapsedOf, optTruthy, jsMaxI]
  have h3 : stopSessionH rhRun1 61000 = (some 0,
      { heap := [finalizeSession sessA 60000 61000], sessions := [0],
        currentSession := none, isRecording := false, isPaused := false,
        startTime := none, pauseTime := none, totalPausedTime := 0 }) := by
    rw [stopSessionH_eq rhRun1 0 sessA 61000 (by rw [h1]) (by rw [h1]) (by rw [h1]; rfl), h2]
    rw [h1]
    simp
  have h4 : readSessionH rhStopped 0 = some (finalizeSession sessA 60000 61000) := by
    unfold rhStopped
    rw [h3]
    rfl
  have h5 : rhMutated = { heap := [{ finalizeSession sessA 60000 61000 with exerciseName := "mutated" }],
                          sessions := [0], currentSession := none, isRecording := false,
                          isPaused := false, startTime := none, pauseTime := none,
                          totalPausedTime := 0 } := by
    unfold rhMutated rhStopped
    rw [h3]
    simp [mutateSessionH, readSessionH]
  have h6 : readSessionH rhMutated 0 =
      some { finalizeSession sessA 60000 61000 with exerciseName := "mutated" } := by
    rw [h5]
    rfl
  have hname : (finalizeSession sessA 60000 61000).exerciseName = "Apertura" := by
    rw [finalize_exerciseName]
    rfl
  refine ⟨by rw [h3], by unfold rhStopped; rw [h3], by rw [h6]; rfl, ?_, ?_⟩
  · rw [h4]
    simp [hname]
  · rw [h4, h6]
    intro hcontra
    have := congrArg (fun o => (Option.map (fun x => x.exerciseName) o)) hcontra
    simp [hname] at this

/-- C6: `startSession(exercise)` called while a session is being recorded
returns the `null` failure sentinel and leaves the entire recorder state —
session, dataPoints and all timing fields — exactly unchanged. -/
theorem startSession_fails_while_recording (s : Recorder) (ex : Exercise)
    (now : ℤ) (freshId : String) (h : s.isRecording = true) :
    startSession s ex now freshId = (none, s) := by
  simp [startSession, h]

/-- C9: for every sequence of `startSession`, `pauseSession`,
`resumeSession` and `recordDataPoint` calls with non-decreasing wall-clock
times, the timestamps of the current session's `dataPoints`, in array
order, are monotonically non-decreasing. -/
theorem dataPoints_timestamps_monotone (ops : List (ℤ × RecOp))
    (h : List.Chain' (fun a b => a.1 ≤ b.1) ops) :
    List.Chain' (fun a b => a ≤ b) (timestampsOf (runRec initRecorder ops)) := by
  have hinit : InvRec initRecorder ((ops.map (fun a => a.1)).headD 0) := by
    constructor
    · simp [timestampsOf, initRecorder]
    · intro x hx
      simp [timestampsOf, initRecorder] at hx
  have hch : List.Chain' (fun a b => a ≤ b)
      (((ops.map (fun a => a.1)).headD 0) :: ops.map (fun a => a.1)) := by
    have hmap : List.Chain' (fun a b => a ≤ b) (ops.map (fun a => a.1)) := by
      rw [List.chain'_map]
      exact h
    cases hops : ops.map (fun a => a.1) with
    | nil => simp
    | cons a tl =>
      rw [List.chain'_cons]
      refine ⟨by simp, ?_⟩
      rw [hops] at hmap
      exact hmap
  obtain ⟨u, hu⟩ := runRec_inv ops initRecorder _ hinit hch
  exact hu.1

/-- C3 (amended): `stopSession()` prepends the finalized session to the
front of the history, resets the recorder's active-session state, and
returns a reference to the very session object stored at the head of the
history (an alias, not a detached copy). -/
theorem stopSession_prepends_resets_returns_head
    (s : RecorderH) (r : ℕ) (sess : Session) (now : ℤ)
    (hr : s.isRecording = true) (hc : s.currentSession = some r)
    (hg : s.heap.get? r = some sess) :
    (stopSessionH s now).1 = some r ∧
    (stopSessionH s now).2.sessions = r :: s.sessions ∧
    (stopSessionH s now).2.sessions.head? = (stopSessionH s now).1 ∧
    (stopSessionH s now).2.currentSession = none ∧
    (stopSessionH s now).2.isRecording = false ∧
    (stopSessionH s now).2.isPaused = false ∧
    (stopSessionH s now).2.startTime = none ∧
    (stopSessionH s now).2.pauseTime = none ∧
    (stopSessionH s now).2.totalPausedTime = 0 ∧
    readSessionH (stopSessionH s now).2 r =
      some (finalizeSession sess (getElapsedTimeH s now) now) := by
  rw [stopSessionH_eq s r sess now hr hc hg]
  exact ⟨rfl, rfl, rfl, rfl, rfl, rfl, rfl, rfl, rfl,
    readSessionH_set s r sess hg _⟩

lemma finalize_status_eq (sess : Session) (e now cp : ℤ)
    (hcp : jsMinI 100 (jsRound ((e : ℚ) / ((sess.duration * 1000 : ℤ) : ℚ) * 100)) = cp) :
    (finalizeSession sess e now).status =
      (if cp ≥ 90 then statusCompleted
       else if cp ≥ 50 then statusPartialDone else statusIncomplete) := by
  obtain ⟨h1, _, _, h4⟩ := finalizeSession_fields sess e now
  rw [h4, h1, hcp]

/-- C4: `stopSession()` sets
`completionPercentage = min(100, round(e/(d*1000)*100))` and
`actualDuration = round(e/1000)` and assigns the status by the 90/50
thresholds on `completionPercentage`; in particular, stopping at exactly
90% of a 100 s target gives `'completed'`, at 89% `'partial'`, and at 49%
`'incomplete'`. -/
theorem stopSession_completion_thresholds
    (s : RecorderH) (r : ℕ) (sess : Session) (now : ℤ)
    (hr : s.isRecording = true) (hc : s.currentSession = some r)
    (hg : s.heap.get? r = some sess) (hd : 0 < sess.duration) :
    (stopSessionH s now).1 = some r ∧
    readSessionH (stopSessionH s now).2 r =
      some (finalizeSession sess (getElapsedTimeH s now) now) ∧
    (finalizeSession sess (getElapsedTimeH s now) now).metrics.completionPercentage =
      jsMinI 100 (jsRound ((getElapsedTimeH s now : ℚ) / ((sess.duration * 1000 : ℤ) : ℚ) * 100)) ∧
    (finalizeSession sess (getElapsedTimeH s now) now).actualDuration =
      some (jsRound ((getElapsedTimeH s now : ℚ) / 1000)) ∧
    (finalizeSession sess (getElapsedTimeH s now) now).status =
      (if (finalizeSession sess (getElapsedTimeH s now) now).metrics.completionPercentage ≥ 90
        then statusCompleted
       else if (finalizeSession sess (getElapsedTimeH s now) now).metrics.completionPercentage ≥ 50
        then statusPartialDone
       else statusIncomplete) ∧
    (readSessionH (stopSessionH rhT 91000).2 0).map (fun x => x.status) = some statusCompleted ∧
    (readSessionH (stopSessionH rhT 90000).2 0).map (fun x => x.status) = some statusPartialDone ∧
    (readSessionH (stopSessionH rhT 50000).2 0).map (fun x => x.status) = some statusIncomplete := by
  have he90 : getElapsedTimeH rhT 91000 = 90000 := by
    norm_num [getElapsedTimeH, rhT, elapsedOf, optTruthy, jsMaxI]
  have he89 : getElapsedTimeH rhT 90000 = 89000 := by
    norm_num [getElapsedTimeH, rhT, elapsedOf, optTruthy, jsMaxI]
  have he49 : getElapsedTimeH rhT 50000 = 49000 := by
    norm_num [getElapsedTimeH, rhT, elapsedOf, optTruthy, jsMaxI]
  refine ⟨?_, ?_, (finalizeSession_fields sess _ now).1,
    (finalizeSession_fields sess _ now).2.1,
    (finalizeSession_fields sess _ now).2.2.2, ?_, ?_, ?_⟩
  · rw [stopSessionH_eq s r sess now hr hc hg]
  · rw [stopSessionH_eq s r sess now hr hc hg]
    exact readSessionH_set s r sess hg _
  · rw [stopSessionH_eq rhT 0 sess100 91000 rfl rfl rfl, he90]
    simp only [readSessionH, rhT]
    simp [List.set]
    rw [finalize_status_eq sess100 90000 91000 90
      (by norm_num [jsMinI, jsRound, sess100, newSessionFor, ex100])]
    norm_num
  · rw [stopSessionH_eq rhT 0 sess100 90000 rfl rfl rfl, he89]
    simp only [readSessionH, rhT]
    simp [List.set]
    rw [finalize_status_eq sess100 89000 90000 89
      (by norm_num [jsMinI, jsRound, sess100, newSessionFor, ex100])]
    norm_num
  · rw [stopSessionH_eq rhT 0 sess100 50000 rfl rfl rfl, he49]
    simp only [readSessionH, rhT]
    simp [List.set]
    rw [finalize_status_eq sess100 49000 50000 49
      (by norm_num [jsMinI, jsRound, sess100, newSessionFor, ex100])]
    norm_num

lemma finalize_aggregates (sess : Session) (e now : ℤ) :
    (finalizeSession sess e now).metrics.avgMouthOpening =
      (if sess.dataPoints.length = 0 then sess.metrics.avgMouthOpening
       else jsRound ((sess.dataPoints.map (fun p => p.mouthOpening)).sum / (sess.dataPoints.length : ℚ))) ∧
    (finalizeSession sess e now).metrics.maxMouthOpening =
      (if sess.dataPoints.length = 0 then sess.metrics.maxMouthOpening
       else jsRound (foldMaxQ (sess.dataPoints.map (fun p => p.mouthOpening)))) ∧
    (finalizeSession sess e now).metrics.avgLateralMovement =
      (if sess.dataPoints.length = 0 then sess.metrics.avgLateralMovement
       else jsRound ((sess.dataPoints.map (fun p => p.lateralMovement)).sum / (sess.dataPoints.length : ℚ))) ∧
    (finalizeSession sess e now).metrics.maxLateralMovement =
      (if sess.dataPoints.length = 0 then sess.metrics.maxLateralMovement
       else jsRound (foldMaxQ (sess.dataPoints.map (fun p => p.lateralMovement)))) := by
  have hmet : (finalizeSession sess e now).metrics =
      (calculateFinalMetricsOn (stampStop sess e now)).metrics := rfl
  have hdp : (stampStop sess e now).dataPoints = sess.dataPoints := rfl
  by_cases h : sess.dataPoints.length = 0
  · have hemp : calculateFinalMetricsOn (stampStop sess e now) = stampStop sess e now :=
      cfm_empty _ (by rw [hdp]; exact h)
    rw [hmet, hemp]
    simp [h, stampStop]
  · obtain ⟨h1, h2, h3, h4⟩ := cfm_avg_max (stampStop sess e now) (by rw [hdp]; exact h)
    rw [hmet]
    rw [hdp] at h1 h2 h3 h4
    have hm1 : (stampStop sess e now).metrics.avgMouthOpening = sess.metrics.avgMouthOpening := rfl
    simp [h, h1, h2, h3, h4]

/-- C5 (counterexample): `stopSession()` does NOT set `maxMouthOpening`
to the maximum of the recorded `mouthOpening` values: for the single
recorded value 1/2 the stored maximum is `Math.round(1/2) = 1 ≠ 1/2` —
the maxima are rounded to the nearest integer before being stored. -/
theorem stopSession_max_is_rounded_cex :
    sessHalf.dataPoints.map (fun p => p.mouthOpening) = [1/2] ∧
    (readSessionH (stopSessionH rhHalf 9000).2 0).map (fun x => x.metrics.maxMouthOpening) =
      some 1 ∧
    ((1 : ℚ) ≠ 1/2) := by
  have he : getElapsedTimeH rhHalf 9000 = 8000 := by
    norm_num [getElapsedTimeH, rhHalf, elapsedOf, optTruthy, jsMaxI]
  refine ⟨by norm_num [sessHalf, newSessionFor, ex100], ?_, by norm_num⟩
  rw [stopSessionH_eq rhHalf 0 sessHalf 9000 rfl rfl rfl, he]
  simp only [readSessionH, rhHalf]
  simp [List.set]
  obtain ⟨_, h2, _, _⟩ := finalize_aggregates sessHalf 8000 9000
  rw [h2]
  norm_num [sessHalf, newSessionFor, ex100, foldMaxQ, jsRound]

/-- C5 (amended): `stopSession()` sets `avgMouthOpening`/
`avgLateralMovement` to the arithmetic mean of the recorded fields rounded
to the nearest integer (0 for a session without dataPoints, given the
zero-initialized metrics every started session has) and `maxMouthOpening`/
`maxLateralMovement` to the maximum of the recorded fields and 0, rounded
to the nearest integer; for dataPoints `[{mouthOpening:10},
{mouthOpening:30}]` the result has `avgMouthOpening = 20` and
`maxMouthOpening = 30`. -/
theorem stopSession_aggregates
    (s : RecorderH) (r : ℕ) (sess : Session) (now : ℤ)
    (hr : s.isRecording = true) (hc : s.currentSession = some r)
    (hg : s.heap.get? r = some sess)
    (hz1 : sess.metrics.avgMouthOpening = 0) (hz2 : sess.metrics.maxMouthOpening = 0)
    (hz3 : sess.metrics.avgLateralMovement = 0) (hz4 : sess.metrics.maxLateralMovement = 0) :
    readSessionH (stopSessionH s now).2 r =
      some (finalizeSession sess (getElapsedTimeH s now) now) ∧
    (finalizeSession sess (getElapsedTimeH s now) now).metrics.avgMouthOpening =
      (if sess.dataPoints.length = 0 then 0
       else jsRound ((sess.dataPoints.map (fun p => p.mouthOpening)).sum / (sess.dataPoints.length : ℚ))) ∧
    (finalizeSession sess (getElapsedTimeH s now) now).metrics.maxMouthOpening =
      jsRound ((sess.dataPoints.map (fun p => p.mouthOpening)).foldl max 0) ∧
    (finalizeSession sess (getElapsedTimeH s now) now).metrics.avgLateralMovement =
      (if sess.dataPoints.length = 0 then 0
       else jsRound ((sess.dataPoints.map (fun p => p.lateralMovement)).sum / (sess.dataPoints.length : ℚ))) ∧
    (finalizeSession sess (getElapsedTimeH s now) now).metrics.maxLateralMovement =
      jsRound ((sess.dataPoints.map (fun p => p.lateralMovement)).foldl max 0) ∧
    (readSessionH (stopSessionH rhEx 9000).2 0).map (fun x => x.metrics.avgMouthOpening) =
      some 20 ∧
    (readSessionH (stopSessionH rhEx 9000).2 0).map (fun x => x.metrics.maxMouthOpening) =
      some 30 := by
  obtain ⟨ha1, ha2, ha3, ha4⟩ := finalize_aggregates sess (getElapsedTimeH s now) now
  have heEx : getElapsedTimeH rhEx 9000 = 8000 := by
    norm_num [getElapsedTimeH, rhEx, elapsedOf, optTruthy, jsMaxI]
  obtain ⟨hb1, hb2, _, _⟩ := finalize_aggregates sessEx 8000 9000
  have hread : readSessionH (stopSessionH rhEx 9000).2 0 =
      some (finalizeSession sessEx 8000 9000) := by
    rw [stopSessionH_eq rhEx 0 sessEx 9000 rfl rfl rfl, heEx]
    simp only [readSessionH, rhEx]
    simp [List.set]
  refine ⟨?_, ?_, ?_, ?_, ?_, ?_, ?_⟩
  · rw [stopSessionH_eq s r sess now hr hc hg]
    exact readSessionH_set s r sess hg _
  · rw [ha1, hz1]
  · rw [ha2, ← foldMaxQ_eq_foldl_max]
    by_cases h : sess.dataPoints.length = 0
    · have hnil : sess.dataPoints = [] := List.length_eq_zero.mp h
      norm_num [h, hnil, hz2, foldMaxQ, jsRound]
    · simp [h]
  · rw [ha3, hz3]
  · rw [ha4, ← foldMaxQ_eq_foldl_max]
    by_cases h : sess.dataPoints.length = 0
    · have hnil : sess.dataPoints = [] := List.length_eq_zero.mp h
      norm_num [h, hnil, hz4, foldMaxQ, jsRound]
    · simp [h]
  · rw [hread, Option.map_some', hb1]
    norm_num [sessEx, newSessionFor, ex100, jsRound]
  · rw [hread, Option.map_some', hb2]
    norm_num [sessEx, newSessionFor, ex100, foldMaxQ, jsRound]

/-- C10: `stopSession()` while paused succeeds (does not return the
failure sentinel): the session is finalized with the elapsed time frozen
at the moment the pause began (`max(0, p - st - totalPausedTime)`,
independent of the stop instant, so the open pause interval is excluded),
and afterwards the paused flag, pause timestamp and accumulated pause time
are all reset, so that a new session can start immediately. -/
theorem stopSession_while_paused
    (s : RecorderH) (r : ℕ) (sess : Session) (p st now now2 : ℤ)
    (ex : Exercise) (freshId : String)
    (hr : s.isRecording = true) (hp : s.isPaused = true)
    (hpt : s.pauseTime = some p) (hp0 : p ≠ 0)
    (hst : s.startTime = some st) (hst0 : st ≠ 0)
    (hc : s.currentSession = some r) (hg : s.heap.get? r = some sess) :
    (stopSessionH s now).1 = some r ∧
    getElapsedTimeH s now = jsMaxI 0 (p - st - s.totalPausedTime) ∧
    readSessionH (stopSessionH s now).2 r =
      some (finalizeSession sess (jsMaxI 0 (p - st - s.totalPausedTime)) now) ∧
    (stopSessionH s now).2.isPaused = false ∧
    (stopSessionH s now).2.pauseTime = none ∧
    (stopSessionH s now).2.totalPausedTime = 0 ∧
    (stopSessionH s now).2.isRecording = false ∧
    (stopSessionH s now).2.currentSession = none ∧
    ((startSessionH (stopSessionH s now).2 ex now2 freshId).1).isSome = true := by
  have he : getElapsedTimeH s now = jsMaxI 0 (p - st - s.totalPausedTime) := by
    unfold getElapsedTimeH elapsedOf
    simp only [hst, hpt, hp, optTruthy, hp0, hst0, Option.getD_some]
    simp only [decide_eq_true_eq]
    rw [if_neg (by simp [hst0]), if_pos (by simp [hp0])]
    unfold jsMaxI
    split_ifs <;> omega
  have hstop := stopSessionH_eq s r sess now hr hc hg
  rw [he] at hstop
  rw [hstop]
  refine ⟨rfl, he, readSessionH_set s r sess hg _, rfl, rfl, rfl, rfl, rfl, ?_⟩
  simp [startSessionH]

/-- C1/code bug: on a complete 478-landmark array with every coordinate
inside the unit square (upper-lip center above both mouth corners — the
resting geometry of a face, exaggerated), `calculateMetrics` returns
`smile = -250`, a negative percentage: the smile formula is only clamped
from above by `Math.min(100, ...)`, contradicting the documented 0-100
range. -/
theorem calculateMetrics_smile_negative :
    lC1.length = 478 ∧
    lC1.all (fun o => o.isSome) = true ∧
    lC1.all inUnitSquare = true ∧
    (calculateMetrics (some lC1)).smile = -250 ∧
    (calculateMetrics (some lC1)).smile < 0 := by
  have L : ∀ i, i < 478 → getLm lC1 i = lmC1Fn i :=
    fun i hi => by rw [lC1, getLm_range_map _ _ _ hi]
  have hsm : (calculateMetrics (some lC1)).smile = -250 := by
    rw [calculateMetrics_decomp]
    show smileOf lC1 = -250
    unfold smileOf
    rw [L 61 (by norm_num), L 291 (by norm_num), L 13 (by norm_num)]
    norm_num [lmC1Fn, jsAbs, jsMin]
  refine ⟨by rw [lC1, List.length_map, List.length_range], ?_, ?_, hsm, by rw [hsm]; norm_num⟩
  · rw [lC1, List.all_eq_true]
    intro o ho
    rw [List.mem_map] at ho
    obtain ⟨i, _, rfl⟩ := ho
    unfold lmC1Fn
    split_ifs <;> rfl
  · rw [lC1, List.all_eq_true]
    intro o ho
    rw [List.mem_map] at ho
    obtain ⟨i, _, rfl⟩ := ho
    unfold lmC1Fn inUnitSquare
    split_ifs <;> norm_num

/-- C7: `calculateMetrics` is total: absent (`null`/`undefined`) input and
the empty array both give the all-zero record; on any array it is exactly
the record of the seven independent per-block functions (each field
depends only on its own block's landmarks); and knocking out a single
landmark exclusive to one block (1, 61, 159, 386, 70, 78) zeroes exactly
that block's metric while every other metric still computes its value. -/
theorem calculateMetrics_total_and_independent :
    calculateMetrics none = emptyMetrics ∧
    calculateMetrics (some []) = emptyMetrics ∧
    (∀ l : List (Option Landmark), calculateMetrics (some l) =
      { mouthOpening := mouthOpeningOf l, lateralMovement := lateralMovementOf l,
        jawPosition := jawPositionOf l, smile := smileOf l,
        leftEyeOpen := leftEyeOpenOf l, rightEyeOpen := rightEyeOpenOf l,
        eyebrowsRaised := eyebrowsRaisedOf l, tongueVisible := tongueVisibleOf l,
        tonguePosition := tonguePositionOf l }) ∧
    calculateMetrics (some lFull) =
      { mouthOpening := 50, lateralMovement := 10, jawPosition := ⟨13/25, 9/10⟩,
        smile := 35, leftEyeOpen := 30, rightEyeOpen := 20, eyebrowsRaised := 40,
        tongueVisible := 58, tonguePosition := ⟨1/2, 51/100⟩ } ∧
    calculateMetrics (some (lDrop 1)) =
      { mouthOpening := 50, lateralMovement := 0, jawPosition := ⟨0, 0⟩,
        smile := 35, leftEyeOpen := 30, rightEyeOpen := 20, eyebrowsRaised := 40,
        tongueVisible := 58, tonguePosition := ⟨1/2, 51/100⟩ } ∧
    calculateMetrics (some (lDrop 61)) =
      { mouthOpening := 50, lateralMovement := 10, jawPosition := ⟨13/25, 9/10⟩,
        smile := 0, leftEyeOpen := 30, rightEyeOpen := 20, eyebrowsRaised := 40,
        tongueVisible := 58, tonguePosition := ⟨1/2, 51/100⟩ } ∧
    calculateMetrics (some (lDrop 159)) =
      { mouthOpening := 50, lateralMovement := 10, jawPosition := ⟨13/25, 9/10⟩,
        smile := 35, leftEyeOpen := 0, rightEyeOpen := 20, eyebrowsRaised := 40,
        tongueVisible := 58, tonguePosition := ⟨1/2, 51/100⟩ } ∧
    calculateMetrics (some (lDrop 386)) =
      { mouthOpening := 50, lateralMovement := 10, jawPosition := ⟨13/25, 9/10⟩,
        smile := 35, leftEyeOpen := 30, rightEyeOpen := 0, eyebrowsRaised := 40,
        tongueVisible := 58, tonguePosition := ⟨1/2, 51/100⟩ } ∧
    calculateMetrics (some (lDrop 70)) =
      { mouthOpening := 50, lateralMovement := 10, jawPosition := ⟨13/25, 9/10⟩,
        smile := 35, leftEyeOpen := 30, rightEyeOpen := 20, eyebrowsRaised := 0,
        tongueVisible := 58, tonguePosition := ⟨1/2, 51/100⟩ } ∧
    calculateMetrics (some (lDrop 78)) =
      { mouthOpening := 50, lateralMovement := 10, jawPosition := ⟨13/25, 9/10⟩,
        smile := 35, leftEyeOpen := 30, rightEyeOpen := 20, eyebrowsRaised := 40,
        tongueVisible := 0, tonguePosition := ⟨0, 0⟩ } := by
  have LF : ∀ i, i < 478 → getLm lFull i = lmFn i :=
    fun i hi => by rw [lFull, getLm_range_map _ _ _ hi]
  have LD : ∀ j i, i < 478 → getLm (lDrop j) i = if i = j then none else lmFn i :=
    fun j i hi => by rw [lDrop, getLm_range_map _ _ _ hi]
  refine ⟨rfl, rfl, calculateMetrics_decomp, ?_, ?_, ?_, ?_, ?_, ?_, ?_⟩
  · rw [calculateMetrics_decomp]
    simp only [mouthOpeningOf, lateralMovementOf, jawPositionOf, smileOf,
      leftEyeOpenOf, rightEyeOpenOf, eyebrowsRaisedOf, tongueVisibleOf, tonguePositionOf]
    rw [LF 13 (by norm_num), LF 14 (by norm_num), LF 152 (by norm_num), LF 1 (by norm_num),
      LF 61 (by norm_num), LF 291 (by norm_num), LF 159 (by norm_num), LF 145 (by norm_num),
      LF 386 (by norm_num), LF 374 (by norm_num), LF 70 (by norm_num), LF 300 (by norm_num),
      LF 6 (by norm_num), LF 78 (by norm_num), LF 308 (by norm_num)]
    norm_num [lmFn, jsAbs, jsMin]
  · rw [calculateMetrics_decomp]
    simp only [mouthOpeningOf, lateralMovementOf, jawPositionOf, smileOf,
      leftEyeOpenOf, rightEyeOpenOf, eyebrowsRaisedOf, tongueVisibleOf, tonguePositionOf]
    rw [LD 1 13 (by norm_num), LD 1 14 (by norm_num), LD 1 152 (by norm_num), LD 1 1 (by norm_num),
      LD 1 61 (by norm_num), LD 1 291 (by norm_num), LD 1 159 (by norm_num), LD 1 145 (by norm_num),
      LD 1 386 (by norm_num), LD 1 374 (by norm_num), LD 1 70 (by norm_num), LD 1 300 (by norm_num),
      LD 1 6 (by norm_num), LD 1 78 (by norm_num), LD 1 308 (by norm_num)]
    norm_num [lmFn, jsAbs, jsMin]
  · rw [calculateMetrics_decomp]
    simp only [mouthOpeningOf, lateralMovementOf, jawPositionOf, smileOf,
      leftEyeOpenOf, rightEyeOpenOf, eyebrowsRaisedOf, tongueVisibleOf, tonguePositionOf]
    rw [LD 61 13 (by norm_num), LD 61 14 (by norm_num), LD 61 152 (by norm_num), LD 61 1 (by norm_num),
      LD 61 61 (by norm_num), LD 61 291 (by norm_num), LD 61 159 (by norm_num), LD 61 145 (by norm_num),
      LD 61 386 (by norm_num), LD 61 374 (by norm_num), LD 61 70 (by norm_num), LD 61 300 (by norm_num),
      LD 61 6 (by norm_num), LD 61 78 (by norm_num), LD 61 308 (by norm_num)]
    norm_num [lmFn, jsAbs, jsMin]
  · rw [calculateMetrics_decomp]
    simp only [mouthOpeningOf, lateralMovementOf, jawPositionOf, smileOf,
      leftEyeOpenOf, rightEyeOpenOf, eyebrowsRaisedOf, tongueVisibleOf, tonguePositionOf]
    rw [LD 159 13 (by norm_num), LD 159 14 (by norm_num), LD 159 152 (by norm_num), LD 159 1 (by norm_num),
      LD 159 61 (by norm_num), LD 159 291 (by norm_num), LD 159 159 (by norm_num), LD 159 145 (by norm_num),
      LD 159 386 (by norm_num), LD 159 374 (by norm_num), LD 159 70 (by norm_num), LD 159 300 (by norm_num),
      LD 159 6 (by norm_num), LD 159 78 (by norm_num), LD 159 308 (by norm_num)]
    norm_num [lmFn, jsAbs, jsMin]
  · rw [calculateMetrics_decomp]
    simp only [mouthOpeningOf, lateralMovementOf, jawPositionOf, smileOf,
      leftEyeOpenOf, rightEyeOpenOf, eyebrowsRaisedOf, tongueVisibleOf, tonguePositionOf]
    rw [LD 386 13 (by norm_num), LD 386 14 (by norm_num), LD 386 152 (by norm_num), LD 386 1 (by norm_num),
      LD 386 61 (by norm_num), LD 386 291 (by norm_num), LD 386 159 (by norm_num), LD 386 145 (by norm_num),
      LD 386 386 (by norm_num), LD 386 374 (by norm_num), LD 386 70 (by norm_num), LD 386 300 (by norm_num),
      LD 386 6 (by norm_num), LD 386 78 (by norm_num), LD 386 308 (by norm_num)]
    norm_num [lmFn, jsAbs, jsMin]
  · rw [calculateMetrics_decomp]
    simp only [mouthOpeningOf, lateralMovementOf, jawPositionOf, smileOf,
      leftEyeOpenOf, rightEyeOpenOf, eyebrowsRaisedOf, tongueVisibleOf, tonguePositionOf]
    rw [LD 70 13 (by norm_num), LD 70 14 (by norm_num), LD 70 152 (by norm_num), LD 70 1 (by norm_num),
      LD 70 61 (by norm_num), LD 70 291 (by norm_num), LD 70 159 (by norm_num), LD 70 145 (by norm_num),
      LD 70 386 (by norm_num), LD 70 374 (by norm_num), LD 70 70 (by norm_num), LD 70 300 (by norm_num),
      LD 70 6 (by norm_num), LD 70 78 (by norm_num), LD 70 308 (by norm_num)]
    norm_num [lmFn, jsAbs, jsMin]
  · rw [calculateMetrics_decomp]
    simp only [mouthOpeningOf, lateralMovementOf, jawPositionOf, smileOf,
      leftEyeOpenOf, rightEyeOpenOf, eyebrowsRaisedOf, tongueVisibleOf, tonguePositionOf]
    rw [LD 78 13 (by norm_num), LD 78 14 (by norm_num), LD 78 152 (by norm_num), LD 78 1 (by norm_num),
      LD 78 61 (by norm_num), LD 78 291 (by norm_num), LD 78 159 (by norm_num), LD 78 145 (by norm_num),
      LD 78 386 (by norm_num), LD 78 374 (by norm_num), LD 78 70 (by norm_num), LD 78 300 (by norm_num),
      LD 78 6 (by norm_num), LD 78 78 (by norm_num), LD 78 308 (by norm_num)]
    norm_num [lmFn, jsAbs, jsMin]

theorem c2_witness :
    (pauseSession recW 5000).1 = true ∧
    getElapsedTime (pauseSession recW 5000).2 10000 = getElapsedTime recW 5000 ∧
    (resumeSession (pauseSession recW 5000).2 8000).1 = true ∧
    getElapsedTime (resumeSession (pauseSession recW 5000).2 8000).2 10000
      = 10000 - 1000 - recW.totalPausedTime - (8000 - 5000) :=
  elapsed_pause_freeze_resume_offset recW 1000 5000 8000 10000 rfl rfl rfl
    (by norm_num) (by norm_num) (by norm_num [recW])

theorem c3_witness :
    (stopSessionH rhRun1 61000).1 = some 0 ∧
    (stopSessionH rhRun1 61000).2.sessions = 0 :: rhRun1.sessions ∧
    (stopSessionH rhRun1 61000).2.sessions.head? = (stopSessionH rhRun1 61000).1 ∧
    (stopSessionH rhRun1 61000).2.currentSession = none ∧
    (stopSessionH rhRun1 61000).2.isRecording = false ∧
    (stopSessionH rhRun1 61000).2.isPaused = false ∧
    (stopSessionH rhRun1 61000).2.startTime = none ∧
    (stopSessionH rhRun1 61000).2.pauseTime = none ∧
    (stopSessionH rhRun1 61000).2.totalPausedTime = 0 ∧
    readSessionH (stopSessionH rhRun1 61000).2 0 =
      some (finalizeSession sessA (getElapsedTimeH rhRun1 61000) 61000) :=
  stopSession_prepends_resets_returns_head rhRun1 0 sessA 61000 rfl rfl rfl

theorem c4_witness :
    (stopSessionH rhT 91000).1 = some 0 ∧
    readSessionH (stopSessionH rhT 91000).2 0 =
      some (finalizeSession sess100 (getElapsedTimeH rhT 91000) 91000) ∧
    (finalizeSession sess100 (getElapsedTimeH rhT 91000) 91000).metrics.completionPercentage =
      jsMinI 100 (jsRound ((getElapsedTimeH rhT 91000 : ℚ) / ((sess100.duration * 1000 : ℤ) : ℚ) * 100)) ∧
    (finalizeSession sess100 (getElapsedTimeH rhT 91000) 91000).actualDuration =
      some (jsRound ((getElapsedTimeH rhT 91000 : ℚ) / 1000)) ∧
    (finalizeSession sess100 (getElapsedTimeH rhT 91000) 91000).status =
      (if (finalizeSession sess100 (getElapsedTimeH rhT 91000) 91000).metrics.completionPercentage ≥ 90
        then statusCompleted
       else if (finalizeSession sess100 (getElapsedTimeH rhT 91000) 91000).metrics.completionPercentage ≥ 50
        then statusPartialDone
       else statusIncomplete) ∧
    (readSessionH (stopSessionH rhT 91000).2 0).map (fun x => x.status) = some statusCompleted ∧
    (readSessionH (stopSessionH rhT 90000).2 0).map (fun x => x.status) = some statusPartialDone ∧
    (readSessionH (stopSessionH rhT 50000).2 0).map (fun x => x.status) = some statusIncomplete :=
  stopSession_completion_thresholds rhT 0 sess100 91000 rfl rfl rfl
    (by norm_num [sess100, newSessionFor, ex100])

theorem c5_witness :
    readSessionH (stopSessionH rhEx 9000).2 0 =
      some (finalizeSession sessEx (getElapsedTimeH rhEx 9000) 9000) ∧
    (finalizeSession sessEx (getElapsedTimeH rhEx 9000) 9000).metrics.avgMouthOpening =
      (if sessEx.dataPoints.length = 0 then 0
       else jsRound ((sessEx.dataPoints.map (fun p => p.mouthOpening)).sum / (sessEx.dataPoints.length : ℚ))) ∧
    (finalizeSession sessEx (getElapsedTimeH rhEx 9000) 9000).metrics.maxMouthOpening =
      jsRound ((sessEx.dataPoints.map (fun p => p.mouthOpening)).foldl max 0) ∧
    (finalizeSession sessEx (getElapsedTimeH rhEx 9000) 9000).metrics.avgLateralMovement =
      (if sessEx.dataPoints.length = 0 then 0
       else jsRound ((sessEx.dataPoints.map (fun p => p.lateralMovement)).sum / (sessEx.dataPoints.length : ℚ))) ∧
    (finalizeSession sessEx (getElapsedTimeH rhEx 9000) 9000).metrics.maxLateralMovement =
      jsRound ((sessEx.dataPoints.map (fun p => p.lateralMovement)).foldl max 0) ∧
    (readSessionH (stopSessionH rhEx 9000).2 0).map (fun x => x.metrics.avgMouthOpening) =
      some 20 ∧
    (readSessionH (stopSessionH rhEx 9000).2 0).map (fun x => x.metrics.maxMouthOpening) =
      some 30 :=
  stopSession_aggregates rhEx 0 sessEx 9000 rfl rfl rfl rfl rfl rfl rfl

theorem c6_witness : startSession recW exA 5000 ("ses_6") = (none, recW) :=
  startSession_fails_while_recording recW exA 5000 ("ses_6") rfl

theorem c9_witness :
    List.Chain' (fun a b => a ≤ b) (timestampsOf (runRec initRecorder opsW)) :=
  dataPoints_timestamps_monotone opsW (by norm_num [opsW])

theorem c10_witness :
    (stopSessionH rhP 9000).1 = some 0 ∧
    getElapsedTimeH rhP 9000 = jsMaxI 0 (4000 - 1000 - rhP.totalPausedTime) ∧
    readSessionH (stopSessionH rhP 9000).2 0 =
      some (finalizeSession sess100 (jsMaxI 0 (4000 - 1000 - rhP.totalPausedTime)) 9000) ∧
    (stopSessionH rhP 9000).2.isPaused = false ∧
    (stopSessionH rhP 9000).2.pauseTime = none ∧
    (stopSessionH rhP 9000).2.totalPausedTime = 0 ∧
    (stopSessionH rhP 9000).2.isRecording = false ∧
    (stopSessionH rhP 9000).2.currentSession = none ∧
    ((startSessionH (stopSessionH rhP 9000).2 exA 10000 ("ses_10")).1).isSome = true :=
  stopSession_while_paused rhP 0 sess100 4000 1000 9000 10000 exA ("ses_10")
    rfl rfl rfl (by norm_num) rfl (by norm_num) rfl rfl
